import Mathlib

/-!
Verification of the receipt-extractor client
(`src/examples/receipt_extractor_client.py`) against its design
specification.  The Python code is shallowly embedded: parsed JSON-like
Python values become the inductive `Json`, dicts become association lists,
`raise ValueError` becomes `Except.error` / the `Outcome.err` constructor,
and the network transport becomes an explicit oracle (`Transport`) so that
`_send_request`'s response handling is a pure function of the transport's
answer.
-/

namespace ReceiptExtractor

/-- A parsed JSON-like Python value as produced by `json.loads` /
`response.json()` (plus `bool`, which Python keeps distinct from `int` at
the type level even though `bool` is a subtype of `int`).  Python floats are
carried as rationals: the client only ever inspects their type tag, never
their arithmetic. -/
inductive Json where
  | null : Json
  | bool : Bool → Json
  | int : Int → Json
  | float : ℚ → Json
  | str : String → Json
  | arr : List Json → Json
  | obj : List (String × Json) → Json

/-- Python `isinstance(v, str)`. -/
def Json.isStr : Json → Bool
  | .str _ => true
  | _ => false

/-- Python `isinstance(v, (int, float))`.  `True`/`False` satisfy it because
`bool` is a subtype of `int` in Python. -/
def Json.isNumber : Json → Bool
  | .bool _ => true
  | .int _ => true
  | .float _ => true
  | _ => false

/-- Python `isinstance(v, int)`.  `bool` is a subtype of `int`, so booleans
pass; floats never do, whatever their value. -/
def Json.isInt : Json → Bool
  | .bool _ => true
  | .int _ => true
  | _ => false

/-- Python `isinstance(v, list)`. -/
def Json.isList : Json → Bool
  | .arr _ => true
  | _ => false

/-- Python `isinstance(v, dict)`. -/
def Json.isDict : Json → Bool
  | .obj _ => true
  | _ => false

/-- A Python dict with string keys, as an association list.  Real dicts have
unique keys; lookup takes the first match, which agrees with dict semantics
on every duplicate-free list. -/
abbrev PyDict := List (String × Json)

/-- Dict lookup `d[k]` (as an `Option`, `none` when the key is absent). -/
def dlookup : PyDict → String → Option Json
  | [], _ => none
  | (k, v) :: rest, key => if k = key then some v else dlookup rest key

/-- Python `k in d` membership test. -/
def dmem (d : PyDict) (k : String) : Bool := (dlookup d k).isSome

/-- Python `d.get(k, default)`. -/
def dget (d : PyDict) (k : String) (dflt : Json) : Json := (dlookup d k).getD dflt

/-- Python `d[k]` where the caller has already checked membership (the
validator always tests `k in d` first, so the default is never observed). -/
def dindex (d : PyDict) (k : String) : Json := (dlookup d k).getD .null

/-- `required_fields` of `validate_schema` (source line 204). -/
def required_fields : List String :=
  ["merchant_name", "datetime", "items", "sub_total", "vat", "service_charge", "total"]

/-- `numeric_fields` of `validate_schema` (source line 240). -/
def numeric_fields : List String := ["sub_total", "vat", "service_charge", "total"]

/-- The required-fields loop of `validate_schema` (lines 206-208): first
missing field raises, in list order. -/
def checkRequired (data : PyDict) : List String → Except String Unit
  | [] => .ok ()
  | f :: rest =>
    if dmem data f then checkRequired data rest
    else .error ("Missing required field: " ++ f)

/-- The body of the per-item loop of `validate_schema` (lines 216-237), for
the item at index `i`: dict check, the three presence checks, then the three
type checks, in source order. -/
def checkItem (i : Nat) (item : Json) : Except String Unit :=
  match item with
  | .obj f =>
    if !dmem f "name" then
      .error ("Item at index " ++ toString i ++ " is missing 'name' field")
    else if !dmem f "price" then
      .error ("Item at index " ++ toString i ++ " is missing 'price' field")
    else if !dmem f "count" then
      .error ("Item at index " ++ toString i ++ " is missing 'count' field")
    else if !(dindex f "name").isStr then
      .error ("Item at index " ++ toString i ++ " has 'name' that is not a string")
    else if !(dindex f "price").isNumber then
      .error ("Item at index " ++ toString i ++ " has 'price' that is not a number")
    else if !(dindex f "count").isInt then
      .error ("Item at index " ++ toString i ++ " has 'count' that is not an integer")
    else .ok ()
  | _ => .error ("Item at index " ++ toString i ++ " is not a dictionary")

/-- The `enumerate(data['items'])` loop (line 215), starting at index `i`. -/
def checkItems (i : Nat) : List Json → Except String Unit
  | [] => .ok ()
  | item :: rest => do
    checkItem i item
    checkItems (i + 1) rest

/-- The numeric-fields loop of `validate_schema` (lines 242-244). -/
def checkNumericFields (data : PyDict) : List String → Except String Unit
  | [] => .ok ()
  | f :: rest =>
    if (dindex data f).isNumber then checkNumericFields data rest
    else .error ("The '" ++ f ++ "' field must be a number")

/-- The two string-field checks of `validate_schema` (lines 247-251). -/
def checkStringFields (data : PyDict) : Except String Unit :=
  if !(dindex data "merchant_name").isStr then
    .error "The 'merchant_name' field must be a string"
  else if !(dindex data "datetime").isStr then
    .error "The 'datetime' field must be a string"
  else .ok ()

/-- `ReceiptExtractorClient.validate_schema` (lines 190-253): the checks in
source order; `raise ValueError(msg)` is `Except.error msg`; on success the
function returns `True`.  The Python signature declares the input a
`Dict[str, Any]`.  The function only reads `data` (membership tests and
indexing), so it is a pure function of the input. -/
def validate_schema (data : PyDict) : Except String Bool := do
  checkRequired data required_fields
  (match dindex data "items" with
   | .arr items => checkItems 0 items
   | _ => throw "The 'items' field must be a list")
  checkNumericFields data numeric_fields
  checkStringFields data
  pure true

/-- The spec's error taxonomy (spec section 7).  Each constructor names one
raise site of the client: `FileNotFoundError` at line 60 (`fileNotFound`);
`ValueError` at lines 76 and 102 (`unsupportedFormat`); the
`except Timeout` handler at line 186 (`timeout`); the
`except RequestException` handler at line 188 (`network`); the
`raise ValueError(error_message)` at line 181 for non-ok statuses
(`httpStatus`); the `validate_schema` raises (`invalidSchema`).
`malformedResponse` has no raise site in the code: it is declared so that
its absence is expressible. -/
inductive ErrKind where
  | fileNotFound : ErrKind
  | unsupportedFormat : ErrKind
  | timeout : ErrKind
  | network : ErrKind
  | httpStatus : ErrKind
  | malformedResponse : ErrKind
  | invalidSchema : ErrKind
  deriving DecidableEq

/-- The observable outcome of a client call: a returned value; a raised
`ValueError`/`FileNotFoundError` tagged with its raise site (the message is
carried as a `Json` value because line 181 re-raises the response's `error`
field as-is, a string at every other site); or a Python exception that no
handler in the client catches (the `AttributeError` of line 177 when
`error_data` is not a dict). -/
inductive Outcome (α : Type) where
  | ok : α → Outcome α
  | err : ErrKind → Json → Outcome α
  | uncaught : String → Outcome α

/-- The error kind of a failed outcome. -/
def Outcome.kind {α : Type} : Outcome α → Option ErrKind
  | .err k _ => some k
  | _ => none

/-- An HTTP response as the client observes it: numeric status code, raw
body text (`response.text`), the parsed body (`response.json()`: `some v`
when the body is valid JSON, `none` when parsing raises
`JSONDecodeError`), and the `str()` of that decode exception for the
failing case. -/
structure HttpResponse where
  status : Nat
  text : String
  jsonBody : Option Json
  decodeErrMsg : String

/-- What one `requests.post` call does: raise `requests.exceptions.Timeout`,
raise another `requests.exceptions.RequestException` (DNS failure,
connection refused, TLS failure, ...), or deliver a response. -/
inductive Transport where
  | timedOut : Transport
  | requestException : String → Transport
  | response : HttpResponse → Transport

/-- `requests.Response.ok`: true unless `raise_for_status` would raise,
i.e. unless the status is 4xx or 5xx. -/
def response_ok (status : Nat) : Bool := decide (status < 400 ∨ 600 ≤ status)

/-- The client configuration held by `ReceiptExtractorClient.__init__`. -/
structure ClientConfig where
  api_url : String
  api_key : String
  timeout : Nat

/-- A headers dict, as an association list (same reading as `PyDict`). -/
abbrev Headers := List (String × String)

/-- Lookup in a string-to-string dict (headers, the MIME table). -/
def slookup : List (String × String) → String → Option String
  | [], _ => none
  | (k, v) :: rest, key => if k = key then some v else slookup rest key

/-- Python `k in hs` on a headers dict. -/
def hmem (hs : Headers) (k : String) : Bool := (slookup hs k).isSome

/-- Lines 155-161 of `_send_request`: start from `{}` when the caller passed
no headers, and add `X-API-Key` exactly when neither `X-API-Key` nor
`Authorization` is already present (a fresh dict insertion appends at the
end). -/
def prepare_headers (api_key : String) (hs : Headers) : Headers :=
  if !hmem hs "X-API-Key" && !hmem hs "Authorization" then
    hs ++ [("X-API-Key", api_key)]
  else hs

/-- `ReceiptExtractorClient._send_request` (lines 137-188), as a function of
the prepared headers and the transport's answer.  Exception routing follows
`requests` ≥ 2.27, where `response.json()` raises
`requests.exceptions.JSONDecodeError`, a subclass of both
`json.JSONDecodeError` (hence `ValueError`) and
`requests.exceptions.RequestException`: in the non-ok branch the inner
`except ValueError` (line 178) catches it, while in the ok branch it
escapes to the outer `except RequestException` (line 187) and is re-raised
as a "Network error: ..." `ValueError`.  `error_data.get` on a non-dict
JSON body raises `AttributeError`, which no handler catches. -/
def send_request (cfg : ClientConfig) (hs : Headers) (t : Transport) : Outcome Json :=
  let _prepared : Headers := prepare_headers cfg.api_key hs
  match t with
  | .timedOut =>
    .err .timeout (.str ("Request timed out after " ++ toString cfg.timeout ++ " seconds"))
  | .requestException msg =>
    .err .network (.str ("Network error: " ++ msg))
  | .response r =>
    if !response_ok r.status then
      match r.jsonBody with
      | some (.obj errorData) =>
        .err .httpStatus (dget errorData "error" (.str ("API error: " ++ toString r.status)))
      | some _ => .uncaught "AttributeError"
      | none =>
        .err .httpStatus (.str ("API error: " ++ toString r.status ++ " " ++ r.text))
    else
      match r.jsonBody with
      | some j => .ok j
      | none => .err .network (.str ("Network error: " ++ r.decodeErrMsg))

/-- Python `s.startswith(p)`: `p` is a prefix of `s` (character-wise). -/
def py_startswith (s p : String) : Bool := p.toList.isPrefixOf s.toList

/-- `ReceiptExtractorClient.process_receipt_bytes` (lines 86-109): reject a
declared content type not starting with `image/` before anything else;
otherwise send, passing explicit headers. -/
def process_receipt_bytes (cfg : ClientConfig) (_image_data : List Nat)
    (content_type : String) (t : Transport) : Outcome Json :=
  if !py_startswith content_type "image/" then
    .err .unsupportedFormat (.str ("Unsupported content type: " ++ content_type))
  else
    send_request cfg [("Content-Type", content_type), ("X-API-Key", cfg.api_key)] t

/-- The filesystem as `process_receipt_file` observes it: `Path.exists` and
the full `open(...).read()` contents, path to bytes. -/
abbrev FileSystem := String → Option (List Nat)

/-- Split a character list at every `/` (the separator of both POSIX paths
and `pathlib`'s internal representation). -/
def splitSlash : List Char → List (List Char)
  | [] => [[]]
  | c :: rest =>
    let r := splitSlash rest
    if c = '/' then [] :: r
    else
      match r with
      | [] => [[c]]
      | h :: t => (c :: h) :: t

/-- `pathlib.PurePath.name`: the final path component (trailing slashes and
empty components dropped). -/
def path_name (p : String) : String :=
  String.mk ((((splitSlash p.toList).filter (fun s => s ≠ [])).getLast?).getD [])

/-- Python `str.lower`, character by character. -/
def py_lower (s : String) : String := String.mk (s.toList.map Char.toLower)

/-- Index of the last `.` in a character list, if any (Python `str.rfind`). -/
def lastDotIdx : List Char → Option Nat
  | [] => none
  | c :: rest =>
    match lastDotIdx rest with
    | some i => some (i + 1)
    | none => if c = '.' then some 0 else none

/-- `pathlib.PurePath.suffix`: `name[i:]` when the last dot of the final
component sits at `0 < i < len(name) - 1`, else the empty string. -/
def path_suffix (p : String) : String :=
  let name := (path_name p).toList
  match lastDotIdx name with
  | some i => if 0 < i ∧ i < name.length - 1 then String.mk (name.drop i) else ""
  | none => ""

/-- `content_type_map` of `process_receipt_file` (lines 64-72). -/
def content_type_map : List (String × String) :=
  [(".jpg", "image/jpeg"), (".jpeg", "image/jpeg"), (".png", "image/png"),
   (".gif", "image/gif"), (".bmp", "image/bmp"), (".webp", "image/webp"),
   (".heic", "image/heic")]

/-- The multipart form-data payload `{'image': (filename, bytes, content
type)}` built at line 83. -/
structure MultipartFile where
  filename : String
  content : List Nat
  content_type : String

/-- Lines 54-83 of `process_receipt_file`: existence check, extension
lookup (lowercased suffix) in the MIME table, file read, payload build. -/
def normalize_file (fs : FileSystem) (image_path : String) : Outcome MultipartFile :=
  match fs image_path with
  | none => .err .fileNotFound (.str ("Image file not found: " ++ image_path))
  | some image_data =>
    let extension := py_lower (path_suffix image_path)
    match slookup content_type_map extension with
    | none => .err .unsupportedFormat (.str ("Unsupported image format: " ++ extension))
    | some content_type => .ok ⟨path_name image_path, image_data, content_type⟩

/-- `ReceiptExtractorClient.process_receipt_file` (lines 39-84): normalize
the file input, then send as multipart form data (`headers=None`, so
`_send_request` starts from the empty header dict). -/
def process_receipt_file (cfg : ClientConfig) (fs : FileSystem) (t : Transport)
    (image_path : String) : Outcome Json :=
  match normalize_file fs image_path with
  | .ok _files => send_request cfg [] t
  | .err k m => .err k m
  | .uncaught e => .uncaught e

/-- A Python number: `int` or `float` (spec section 3, `LineItem.price`). -/
inductive PyNum where
  | int : Int → PyNum
  | float : ℚ → PyNum

/-- The JSON value a `PyNum` serializes to (and parses back from:
`json.dumps`/`json.loads` round-trip ints and floats exactly). -/
def PyNum.toJson : PyNum → Json
  | .int n => .int n
  | .float q => .float q

/-- An in-memory well-formed line item (spec section 3). -/
structure LineItem where
  name : String
  price : PyNum
  count : Int

/-- An in-memory well-formed receipt (spec section 3): all seven fields
present with their required types. -/
structure Receipt where
  merchant_name : String
  datetime : String
  items : List LineItem
  sub_total : PyNum
  vat : PyNum
  service_charge : PyNum
  total : PyNum

/-- The dict a `LineItem` serializes to. -/
def LineItem.toJson (it : LineItem) : Json :=
  .obj [("name", .str it.name), ("price", it.price.toJson), ("count", .int it.count)]

/-- The dict a `Receipt` serializes to; `json.dumps` followed by
`json.loads` reproduces exactly this structure, so validating the
round-tripped value is validating this dict. -/
def Receipt.toDict (r : Receipt) : PyDict :=
  [("merchant_name", .str r.merchant_name), ("datetime", .str r.datetime),
   ("items", .arr (r.items.map LineItem.toJson)), ("sub_total", r.sub_total.toJson),
   ("vat", r.vat.toJson), ("service_charge", r.service_charge.toJson),
   ("total", r.total.toJson)]

/-- An item dict with the three required keys. -/
def mkItem (name price count : Json) : Json :=
  .obj [("name", name), ("price", price), ("count", count)]

/-- A receipt dict with the given values at the four numeric fields and the
given items list; the remaining fields hold well-typed concrete values. -/
def mkReceiptNums (st va sc tot : Json) (items : List Json) : PyDict :=
  [("merchant_name", .str "Cafe"), ("datetime", .str "2024-01-01 12:00"),
   ("items", .arr items), ("sub_total", st), ("vat", va),
   ("service_charge", sc), ("total", tot)]

/-- An otherwise well-formed receipt dict around the given items list. -/
def mkReceipt (items : List Json) : PyDict :=
  mkReceiptNums (.int 100) (.int 7) (.int 10) (.int 117) items

/-! ### Helper lemmas -/

theorem except_bind_ok {ε α β : Type} (a : α) (f : α → Except ε β) :
    (Except.ok a >>= f) = f a := rfl

theorem except_bind_error {ε α β : Type} (e : ε) (f : α → Except ε β) :
    ((Except.error e : Except ε α) >>= f) = Except.error e := rfl

theorem except_bind_eq_ok {ε α β : Type} {x : Except ε α} {f : α → Except ε β} {b : β}
    (h : (x >>= f) = .ok b) : ∃ a, x = .ok a ∧ f a = .ok b := by
  cases x with
  | error e => rw [except_bind_error] at h; exact absurd h (by simp)
  | ok a => exact ⟨a, rfl, h⟩

theorem checkRequired_first_missing (data : PyDict) (fields : List String) (f : String)
    (h : fields.find? (fun g => !dmem data g) = some f) :
    checkRequired data fields = .error ("Missing required field: " ++ f) := by
  induction fields with
  | nil => simp [List.find?] at h
  | cons g rest ih =>
    cases hg : dmem data g with
    | true =>
      simp only [List.find?, hg, Bool.not_true] at h
      simp [checkRequired, hg, ih h]
    | false =>
      simp only [List.find?, hg, Bool.not_false] at h
      cases h
      simp [checkRequired, hg]

theorem checkRequired_all_present (data : PyDict) (fields : List String)
    (h : fields.find? (fun g => !dmem data g) = none) :
    checkRequired data fields = .ok () := by
  induction fields with
  | nil => rfl
  | cons g rest ih =>
    cases hg : dmem data g with
    | true =>
      simp only [List.find?, hg, Bool.not_true] at h
      simp [checkRequired, hg, ih h]
    | false => simp [List.find?, hg] at h

theorem checkItems_append (i : Nat) (xs ys : List Json) :
    checkItems i (xs ++ ys) =
      (checkItems i xs >>= fun _ => checkItems (i + xs.length) ys) := by
  induction xs generalizing i with
  | nil => simp [checkItems, except_bind_ok]
  | cons x rest ih =>
    simp only [List.cons_append, checkItems]
    cases hx : checkItem i x with
    | error e => simp [hx, except_bind_error]
    | ok u =>
      have harith : i + 1 + rest.length = i + (rest.length + 1) := by omega
      simp [hx, except_bind_ok, ih, harith]

/-- `validate_schema` on an `mkReceipt` template reduces to the items loop:
every other check of the template passes definitionally. -/
theorem validate_mkReceipt (items : List Json) :
    validate_schema (mkReceipt items) = (checkItems 0 items >>= fun _ => pure true) := rfl

theorem checkItem_float_count (nm : String) (price : Json) (q : ℚ) (i : Nat)
    (hprice : price.isNumber = true) :
    checkItem i (mkItem (.str nm) price (.float q)) =
      .error ("Item at index " ++ toString i ++ " has 'count' that is not an integer") := by
  simp [checkItem, mkItem, dmem, dindex, dlookup, Json.isStr, Json.isInt, hprice]

theorem checkItem_int_count (nm : String) (price : Json) (c : Int) (i : Nat)
    (hprice : price.isNumber = true) :
    checkItem i (mkItem (.str nm) price (.int c)) = .ok () := by
  simp [checkItem, mkItem, dmem, dindex, dlookup, Json.isStr, Json.isInt, hprice]

theorem checkItem_toJson (i : Nat) (it : LineItem) : checkItem i it.toJson = .ok () := by
  cases it with
  | mk nm pr ct => cases pr <;> rfl

theorem checkItems_toJson (i : Nat) (items : List LineItem) :
    checkItems i (items.map LineItem.toJson) = .ok () := by
  induction items generalizing i with
  | nil => rfl
  | cons it rest ih => simp [checkItems, checkItem_toJson, ih, except_bind_ok]

theorem PyNum_toJson_isNumber (x : PyNum) : x.toJson.isNumber = true := by
  cases x <;> rfl

theorem slookup_append_other (hs : Headers) (k0 v0 k : String) (hk : ¬k0 = k) :
    slookup (hs ++ [(k0, v0)]) k = slookup hs k := by
  induction hs with
  | nil => simp [slookup, hk]
  | cons kv rest ih =>
    cases kv with
    | mk k1 v1 =>
      simp only [List.cons_append, slookup]
      by_cases h1 : k1 = k
      · simp [h1]
      · simp [h1, ih]

/-! ### Claim theorems -/

/-- C1: `validate_schema` performs the presence checks on the seven required
fields first, in their fixed order, and on the first missing field it stops
with an error naming exactly that field (no later check is reported); when
all seven are present, the next check in order is items-is-a-sequence. -/
theorem C1_required_fields_first (data : PyDict) (f : String) :
    (required_fields.find? (fun g => !dmem data g) = some f →
      validate_schema data = .error ("Missing required field: " ++ f)) ∧
    (required_fields.find? (fun g => !dmem data g) = none →
      (dindex data "items").isList = false →
      validate_schema data = .error "The 'items' field must be a list") := by
  constructor
  · intro h
    unfold validate_schema
    rw [checkRequired_first_missing data required_fields f h, except_bind_error]
  · intro h hlist
    unfold validate_schema
    rw [checkRequired_all_present data required_fields h, except_bind_ok]
    cases hitem : dindex data "items" <;>
      simp only [Json.isList, hitem] at hlist ⊢ <;>
      first
        | rfl
        | exact absurd hlist (by simp)

/-- C1 witness: a dict missing `items` (and everything after it) is rejected
naming `items`, the first missing field; a dict with all seven fields but a
non-list `items` is rejected by the items-is-a-list check. -/
theorem C1_witness :
    required_fields.find?
        (fun g => !dmem [("merchant_name", Json.str "A"), ("datetime", Json.str "B")] g) =
      some "items" ∧
    validate_schema [("merchant_name", Json.str "A"), ("datetime", Json.str "B")] =
      .error "Missing required field: items" ∧
    validate_schema
        [("merchant_name", Json.str "A"), ("datetime", Json.str "B"),
         ("items", Json.int 5), ("sub_total", Json.int 1), ("vat", Json.int 1),
         ("service_charge", Json.int 1), ("total", Json.int 1)] =
      .error "The 'items' field must be a list" := by
  refine ⟨by decide, ?_, ?_⟩
  · exact (C1_required_fields_first
      [("merchant_name", Json.str "A"), ("datetime", Json.str "B")] "items").1 (by decide)
  · exact (C1_required_fields_first
      [("merchant_name", Json.str "A"), ("datetime", Json.str "B"),
       ("items", Json.int 5), ("sub_total", Json.int 1), ("vat", Json.int 1),
       ("service_charge", Json.int 1), ("total", Json.int 1)] "").2 (by decide) (by decide)

/-- C2: in an otherwise well-formed receipt, an item whose `count` is a
float is rejected as not an integer whatever the float's value (in
particular for integral values), while the same item with an integer
`count` is accepted. -/
theorem C2_count_type_strict (pre : List Json) (nm : String) (price : Json) (q : ℚ) (c : Int)
    (hpre : checkItems 0 pre = .ok ()) (hprice : price.isNumber = true) :
    validate_schema (mkReceipt (pre ++ [mkItem (.str nm) price (.float q)])) =
      .error ("Item at index " ++ toString pre.length ++
        " has 'count' that is not an integer") ∧
    validate_schema (mkReceipt (pre ++ [mkItem (.str nm) price (.int c)])) = .ok true := by
  constructor
  · rw [validate_mkReceipt, checkItems_append, hpre, except_bind_ok]
    simp [checkItems, checkItem_float_count nm price q pre.length hprice,
      except_bind_error]
  · rw [validate_mkReceipt, checkItems_append, hpre, except_bind_ok]
    simp [checkItems, checkItem_int_count nm price c pre.length hprice, except_bind_ok]

/-- C2 witness: `count = 3.0` (an integral float) is rejected at index 0 as
not an integer; `count = 3` is accepted. -/
theorem C2_witness :
    checkItems 0 [] = .ok () ∧ (Json.int 50).isNumber = true ∧
    validate_schema (mkReceipt [mkItem (.str "Coffee") (.int 50) (.float 3)]) =
      .error "Item at index 0 has 'count' that is not an integer" ∧
    validate_schema (mkReceipt [mkItem (.str "Coffee") (.int 50) (.int 3)]) = .ok true := by
  have h := C2_count_type_strict [] "Coffee" (.int 50) 3 3 rfl rfl
  exact ⟨rfl, rfl, h.1, h.2⟩

/-- C9: Python's `bool` is a subtype of `int`, so `validate_schema` accepts
booleans wherever it requires an integer (`count`) or a number (`price` and
the four monetary fields). -/
theorem C9_bool_passes_numeric_checks (b1 b2 b3 b4 bp bc : Bool) :
    validate_schema (mkReceiptNums (.bool b1) (.bool b2) (.bool b3) (.bool b4)
      [mkItem (.str "x") (.bool bp) (.bool bc)]) = .ok true := rfl

theorem validate_schema_ne_ok_false (data : PyDict) :
    validate_schema data ≠ Except.ok false := by
  intro hcontra
  unfold validate_schema at hcontra
  obtain ⟨u1, -, hcontra⟩ := except_bind_eq_ok hcontra
  obtain ⟨u2, -, hcontra⟩ := except_bind_eq_ok hcontra
  obtain ⟨u3, -, hcontra⟩ := except_bind_eq_ok hcontra
  obtain ⟨u4, -, hcontra⟩ := except_bind_eq_ok hcontra
  exact absurd hcontra (by simp [pure, Except.pure])

/-- C10: on every input `validate_schema` either returns `True` or raises a
`ValueError` — it never returns `False`.  (The Python body only reads `data`
with membership tests and indexing and never assigns through it, which is
why it embeds as a pure function of the unchanged input.) -/
theorem C10_true_or_raises (data : PyDict) :
    validate_schema data = .ok true ∨ ∃ msg, validate_schema data = .error msg := by
  cases hv : validate_schema data with
  | error e => exact Or.inr ⟨e, rfl⟩
  | ok b =>
    cases b with
    | false => exact absurd hv (validate_schema_ne_ok_false data)
    | true => exact Or.inl rfl

/-- C3 counterexample: a status-200 response whose body is not valid JSON
does not fail with the `MalformedResponse` kind — the decode exception is a
`RequestException` and lands in the generic network handler, producing the
`Network` raise site with a "Network error: ..." message. -/
theorem C3_counterexample :
    send_request ⟨"http://api", "key", 30⟩ []
        (.response ⟨200, "not json", none, "Expecting value: line 1 column 1 (char 0)"⟩) =
      .err .network (.str "Network error: Expecting value: line 1 column 1 (char 0)") ∧
    (send_request ⟨"http://api", "key", 30⟩ []
        (.response ⟨200, "not json", none,
          "Expecting value: line 1 column 1 (char 0)"⟩)).kind ≠
      some ErrKind.malformedResponse := by
  refine ⟨rfl, ?_⟩
  intro h
  rw [show (send_request ⟨"http://api", "key", 30⟩ []
      (.response ⟨200, "not json", none,
        "Expecting value: line 1 column 1 (char 0)"⟩)).kind =
      some ErrKind.network from rfl] at h
  cases h

/-- C3 amended: for every success-status response whose body is not valid
JSON, `_send_request` fails with the `Network` error kind, wrapping the
decode exception's message — the same handler that serves network-level
transport failures; no `MalformedResponse` kind exists in the code. -/
theorem C3_bad_json_is_network_error (cfg : ClientConfig) (hs : Headers) (r : HttpResponse)
    (hok : response_ok r.status = true) (hjson : r.jsonBody = none) :
    send_request cfg hs (.response r) =
      .err .network (.str ("Network error: " ++ r.decodeErrMsg)) := by
  simp [send_request, hok, hjson]

/-- C3 witness: status 200 is a success status, and an undecodable body
yields the Network-kind failure. -/
theorem C3_witness :
    response_ok 200 = true ∧
    send_request ⟨"u", "k", 30⟩ [] (.response ⟨200, "oops", none, "Expecting value"⟩) =
      .err .network (.str "Network error: Expecting value") :=
  ⟨rfl, C3_bad_json_is_network_error ⟨"u", "k", 30⟩ [] ⟨200, "oops", none, "Expecting value"⟩
    rfl rfl⟩

/-- C4 counterexample: a status-500 response whose body parses to a JSON
array does not fail with `HttpStatus` — `error_data.get` on a list raises
`AttributeError`, which no handler catches. -/
theorem C4_counterexample :
    send_request ⟨"u", "k", 30⟩ []
        (.response ⟨500, "[1, 2]", some (.arr [.int 1, .int 2]), ""⟩) =
      .uncaught "AttributeError" ∧
    (send_request ⟨"u", "k", 30⟩ []
        (.response ⟨500, "[1, 2]", some (.arr [.int 1, .int 2]), ""⟩)).kind ≠
      some ErrKind.httpStatus := by
  refine ⟨rfl, ?_⟩
  intro h
  rw [show (send_request ⟨"u", "k", 30⟩ []
      (.response ⟨500, "[1, 2]", some (.arr [.int 1, .int 2]), ""⟩)).kind = none from rfl] at h
  cases h

/-- C4 amended: for every response with a non-success status, when the body
parses as a JSON object `_send_request` fails with `HttpStatus` carrying
the object's `error` field (default "API error: {status}" when the field is
absent), and when the body is not valid JSON it fails with `HttpStatus`
carrying a message built from the numeric status and the raw body text;
a body parsing to a non-object JSON value instead escapes as an uncaught
`AttributeError`. -/
theorem C4_http_status_messages (cfg : ClientConfig) (hs : Headers) (r : HttpResponse)
    (hok : response_ok r.status = false) :
    (∀ ed, r.jsonBody = some (.obj ed) →
      send_request cfg hs (.response r) =
        .err .httpStatus (dget ed "error" (.str ("API error: " ++ toString r.status)))) ∧
    (r.jsonBody = none →
      send_request cfg hs (.response r) =
        .err .httpStatus (.str ("API error: " ++ toString r.status ++ " " ++ r.text))) := by
  constructor
  · intro ed hj
    simp [send_request, hok, hj]
  · intro hj
    simp [send_request, hok, hj]

/-- C4 witness: the spec's own scenario — status 500 with body
`{"error":"bad image"}` fails with `HttpStatus` and message "bad image" —
and the non-JSON fallback builds the message from status and raw text. -/
theorem C4_witness :
    response_ok 500 = false ∧
    send_request ⟨"u", "k", 30⟩ []
        (.response ⟨500, "ignored",
          some (.obj [("error", .str "bad image")]), ""⟩) =
      .err .httpStatus (.str "bad image") ∧
    send_request ⟨"u", "k", 30⟩ [] (.response ⟨500, "oops", none, "Expecting value"⟩) =
      .err .httpStatus (.str "API error: 500 oops") := by
  refine ⟨rfl, ?_, ?_⟩
  · exact (C4_http_status_messages ⟨"u", "k", 30⟩ []
      ⟨500, "ignored", some (.obj [("error", .str "bad image")]), ""⟩
      rfl).1 [("error", .str "bad image")] rfl
  · exact (C4_http_status_messages ⟨"u", "k", 30⟩ []
      ⟨500, "oops", none, "Expecting value"⟩ rfl).2 rfl

/-- C5: `process_receipt_file` fails with `FileNotFound` on a nonexistent
path; on an existing path whose lowercased extension is outside the MIME
table it fails with `UnsupportedFormat`; and for every extension the table
maps, the multipart payload's content type is exactly the table entry. -/
theorem C5_file_normalization (cfg : ClientConfig) (fs : FileSystem) (t : Transport)
    (p : String) :
    (fs p = none →
      process_receipt_file cfg fs t p =
        .err .fileNotFound (.str ("Image file not found: " ++ p))) ∧
    (∀ d, fs p = some d →
      slookup content_type_map (py_lower (path_suffix p)) = none →
      process_receipt_file cfg fs t p =
        .err .unsupportedFormat
          (.str ("Unsupported image format: " ++ py_lower (path_suffix p)))) ∧
    (∀ d ct, fs p = some d →
      slookup content_type_map (py_lower (path_suffix p)) = some ct →
      normalize_file fs p = .ok ⟨path_name p, d, ct⟩) := by
  refine ⟨?_, ?_, ?_⟩
  · intro h
    simp [process_receipt_file, normalize_file, h]
  · intro d hd hct
    simp [process_receipt_file, normalize_file, hd, hct]
  · intro d ct hd hct
    simp [normalize_file, hd, hct]

/-- C5 witness: a missing path fails with `FileNotFound`; an existing
`.txt` file fails with `UnsupportedFormat`; an existing `.png` file
normalizes to a payload whose content type is the table's `image/png`. -/
theorem C5_witness :
    process_receipt_file ⟨"u", "k", 30⟩
        (fun q => if q = "receipts/lunch.png" then some [137, 80]
          else if q = "docs/scan.txt" then some [1] else none)
        .timedOut "missing.png" =
      .err .fileNotFound (.str "Image file not found: missing.png") ∧
    process_receipt_file ⟨"u", "k", 30⟩
        (fun q => if q = "receipts/lunch.png" then some [137, 80]
          else if q = "docs/scan.txt" then some [1] else none)
        .timedOut "docs/scan.txt" =
      .err .unsupportedFormat (.str "Unsupported image format: .txt") ∧
    normalize_file
        (fun q => if q = "receipts/lunch.png" then some [137, 80]
          else if q = "docs/scan.txt" then some [1] else none)
        "receipts/lunch.png" =
      .ok ⟨"lunch.png", [137, 80], "image/png"⟩ := by
  have h1 := (C5_file_normalization ⟨"u", "k", 30⟩
    (fun q => if q = "receipts/lunch.png" then some [137, 80]
      else if q = "docs/scan.txt" then some [1] else none) .timedOut "missing.png").1 rfl
  have h2 := ((C5_file_normalization ⟨"u", "k", 30⟩
    (fun q => if q = "receipts/lunch.png" then some [137, 80]
      else if q = "docs/scan.txt" then some [1] else none) .timedOut "docs/scan.txt").2.1)
    [1] rfl rfl
  have h3 := ((C5_file_normalization ⟨"u", "k", 30⟩
    (fun q => if q = "receipts/lunch.png" then some [137, 80]
      else if q = "docs/scan.txt" then some [1] else none) .timedOut
    "receipts/lunch.png").2.2) [137, 80] "image/png" rfl rfl
  exact ⟨h1, h2, h3⟩

/-- C6: a declared content type not starting with `image/` makes
`process_receipt_bytes` fail with `UnsupportedFormat` whatever the network
would have answered (the transport oracle is never consulted), while a type
starting with `image/` proceeds straight to `_send_request`. -/
theorem C6_bytes_content_type_gate (cfg : ClientConfig) (d : List Nat) (ct : String)
    (t : Transport) :
    (py_startswith ct "image/" = false →
      process_receipt_bytes cfg d ct t =
        .err .unsupportedFormat (.str ("Unsupported content type: " ++ ct))) ∧
    (py_startswith ct "image/" = true →
      process_receipt_bytes cfg d ct t =
        send_request cfg [("Content-Type", ct), ("X-API-Key", cfg.api_key)] t) := by
  constructor <;> intro h <;> simp [process_receipt_bytes, h]

/-- C6 witness: `text/plain` is rejected even when the transport would have
delivered a perfect response, and `image/png` goes through to
`_send_request`. -/
theorem C6_witness :
    py_startswith "text/plain" "image/" = false ∧
    process_receipt_bytes ⟨"u", "k", 30⟩ [1] "text/plain"
        (.response ⟨200, "{}", some (.obj []), ""⟩) =
      .err .unsupportedFormat (.str "Unsupported content type: text/plain") ∧
    process_receipt_bytes ⟨"u", "k", 30⟩ [1] "image/png" .timedOut =
      send_request ⟨"u", "k", 30⟩ [("Content-Type", "image/png"), ("X-API-Key", "k")]
        .timedOut := by
  refine ⟨rfl, ?_, ?_⟩
  · exact (C6_bytes_content_type_gate ⟨"u", "k", 30⟩ [1] "text/plain"
      (.response ⟨200, "{}", some (.obj []), ""⟩)).1 rfl
  · exact (C6_bytes_content_type_gate ⟨"u", "k", 30⟩ [1] "image/png" .timedOut).2 rfl

/-- C7: `_send_request` adds the `X-API-Key` header exactly when the
incoming header dict contains neither `X-API-Key` nor `Authorization`, and
every lookup of any other key is unchanged by the preparation step. -/
theorem C7_api_key_header (api_key : String) (hs : Headers) :
    (hmem hs "X-API-Key" = false → hmem hs "Authorization" = false →
      prepare_headers api_key hs = hs ++ [("X-API-Key", api_key)]) ∧
    (hmem hs "X-API-Key" = true ∨ hmem hs "Authorization" = true →
      prepare_headers api_key hs = hs) ∧
    (∀ k, k ≠ "X-API-Key" →
      slookup (prepare_headers api_key hs) k = slookup hs k) := by
  refine ⟨?_, ?_, ?_⟩
  · intro h1 h2
    simp [prepare_headers, h1, h2]
  · intro h
    cases h with
    | inl h => simp [prepare_headers, h]
    | inr h => simp [prepare_headers, h]
  · intro k hk
    unfold prepare_headers
    split
    · exact slookup_append_other hs "X-API-Key" api_key k (fun h => hk h.symm)
    · rfl

/-- C7 witness: with only an `Accept` header present the key is appended
and the `Accept` entry is untouched; with `Authorization` present nothing
is added. -/
theorem C7_witness :
    prepare_headers "k" [("Accept", "a")] = [("Accept", "a"), ("X-API-Key", "k")] ∧
    slookup (prepare_headers "k" [("Accept", "a")]) "Accept" = some "a" ∧
    prepare_headers "k" [("Authorization", "Bearer t")] = [("Authorization", "Bearer t")] := by
  refine ⟨?_, ?_, ?_⟩
  · exact (C7_api_key_header "k" [("Accept", "a")]).1 rfl rfl
  · exact (C7_api_key_header "k" [("Accept", "a")]).2.2 "Accept" (by decide)
  · exact (C7_api_key_header "k" [("Authorization", "Bearer t")]).2.1 (Or.inr rfl)

/-- C8: serializing any well-typed in-memory `Receipt` (seven fields, items
a possibly empty list of well-typed `LineItem`s) and re-parsing it yields a
dict that `validate_schema` accepts, returning `True`. -/
theorem C8_roundtrip_validates (r : Receipt) : validate_schema r.toDict = .ok true := by
  cases r with
  | mk mn dt its st va sc tot =>
    have hitems : checkItems 0 (its.map LineItem.toJson) = .ok () :=
      checkItems_toJson 0 its
    simp [validate_schema, Receipt.toDict, checkRequired, required_fields, dmem, dindex,
      dlookup, checkNumericFields, numeric_fields, checkStringFields, Json.isStr,
      PyNum_toJson_isNumber, hitems, except_bind_ok]

end ReceiptExtractor
